import Mathlib

/-!
# Shopping-list REST server: authentication chain and list store

A shallow embedding of `src/main.go`.  The three package-level variables
(`allData`, `sessions`, `allUsers`) become the fields of `State`, which every
handler receives and returns.  A handler also receives the response writer it
writes to, the request, and the two values it draws from its surroundings
(`time.Now()` and `rand.IntN`).

Conventions of the embedding:

* A Go `string` is a sequence of bytes; here it is a `String`, one `Char`
  standing for one byte.  Prefix test, slicing, concatenation and equality act
  on the underlying sequence, so every byte string is covered.
* A Go map `map[string]*V` is a function `String → Option V`; `none` is what an
  index expression yields as `nil` (key absent, or key bound to a nil pointer:
  the program never tells these apart).
* `time.Time` is an integer count of nanoseconds; `int` is `Int`.
* The JSON codec is a collaborator: a request carries what `Decode` yields for
  each target type and a response body is the sequence of values written.
* Of a response only the status and the body are kept; response headers
  (`Content-Type` and the like) are not modelled.
* A runtime panic (slice out of range, nil dereference) is `Outcome.fault`:
  the handler stops there and writes nothing further.
-/

namespace RestApi

/-! ## Data model (main.go 13-45) -/

structure User where
  Role : String
  Username : String
  Password : String
deriving DecidableEq

structure Session where
  Expires : Int
  Username : String
deriving DecidableEq

structure LoginRequest where
  Username : String
  Password : String
deriving DecidableEq

/-- A shopping list.  `Items` is a Go slice; a nil slice and an empty slice are
both the empty list (no handler compares `ShoppingList.Items` with nil). -/
structure ShoppingList where
  ID : Int
  Name : String
  Items : List String
deriving DecidableEq

/-- The body of a PATCH.  `Name` is a `*string` and `Items` a slice that the
handler compares with nil: `none` is nil, `some []` an empty non-nil slice. -/
structure ShoppingListPatch where
  Name : Option String
  Items : Option (List String)
deriving DecidableEq

structure ListPushAction where
  Item : String
deriving DecidableEq

/-- A Go map with string keys and pointer values. -/
abbrev GoMap (V : Type) := String → Option V

/-- The map with no entries. -/
def GoMap.empty {V : Type} : GoMap V := fun _ => none

/-- The assignment `m[k] = v`. -/
def GoMap.set {V : Type} (m : GoMap V) (k : String) (v : V) : GoMap V :=
  fun k' => if k' = k then some v else m k'

/-- The initial value of `allUsers` (main.go 42-45). -/
def allUsers : GoMap User := fun k =>
  if k = "admin" then some ⟨"admin", "admin", "password"⟩
  else if k = "user" then some ⟨"user", "user", "password"⟩
  else none

/-- The package-level variables. -/
structure State where
  allData : List ShoppingList
  sessions : GoMap Session
  allUsers : GoMap User

/-- The state at process start (main.go 40-45). -/
def State.init : State :=
  { allData := [], sessions := GoMap.empty, allUsers := RestApi.allUsers }

/-! ## Library collaborators -/

/-- Go `strings.HasPrefix s p`. -/
def HasPrefix (s p : String) : Bool := p.data.isPrefixOf s.data

/-- The slice expression `s[n:]`: out of range (a panic) when `n > len(s)`. -/
def sliceFrom (s : String) (n : Nat) : Option String :=
  if n ≤ s.data.length then some ⟨s.data.drop n⟩ else none

/-- The character of a decimal digit. -/
def digitChar (d : Nat) : Char := Char.ofNat (48 + d)

/-- Decimal digits of `n`, most significant first; `fuel` bounds the number of
digits produced and `n + 1` always suffices. -/
def natDigits : Nat → Nat → List Char
  | 0, _ => []
  | fuel + 1, n =>
    if n < 10 then [digitChar n] else natDigits fuel (n / 10) ++ [digitChar (n % 10)]

/-- Go `strconv.Itoa`: the canonical decimal rendering of an integer, with a
leading minus sign for a negative one. -/
def Itoa (i : Int) : String :=
  match i with
  | Int.ofNat n => ⟨natDigits (n + 1) n⟩
  | Int.negSucc n => ⟨'-' :: natDigits (n + 2) (n + 1)⟩

/-- One value written to a response body: a line of text, the text of a codec
error (`err.Error()`, not modelled further), or the JSON rendering of a value. -/
inductive Payload
  | text (msg : String)
  | errText
  | token (t : String)
  | list (l : ShoppingList)
  | lists (ls : List ShoppingList)
deriving DecidableEq

/-- An `http.ResponseWriter`: the status line once it is fixed, and the body
written so far. -/
structure ResponseWriter where
  status : Option Nat
  body : List Payload
deriving DecidableEq

/-- The writer a handler is given by the server. -/
def ResponseWriter.fresh : ResponseWriter := { status := none, body := [] }

/-- The call `w.WriteHeader(code)`: fixes the status unless it is already fixed
(a later call is superfluous and ignored). -/
def ResponseWriter.WriteHeader (w : ResponseWriter) (code : Nat) : ResponseWriter :=
  match w.status with
  | none => { w with status := some code }
  | some _ => w

/-- A body write: fixes status 200 when no status is fixed yet. -/
def ResponseWriter.Write (w : ResponseWriter) (p : Payload) : ResponseWriter :=
  { status := some (w.status.getD 200), body := w.body ++ [p] }

/-- Go `http.Error(w, msg, code)`. -/
def httpError (w : ResponseWriter) (msg : String) (code : Nat) : ResponseWriter :=
  (w.WriteHeader code).Write (Payload.text msg)

/-- Go `http.Error(w, err.Error(), code)` for a codec error `err`. -/
def httpErrorErr (w : ResponseWriter) (code : Nat) : ResponseWriter :=
  (w.WriteHeader code).Write Payload.errText

/-- An `*http.Request`, as far as the handlers read it. -/
structure Request where
  /-- The value of `r.Header.Get("Authorization")`, empty when the header is absent. -/
  Authorization : String
  /-- The value of `r.PathValue("id")`. -/
  id : String
  /-- The variable `data` of `handleLogin` after `Decode` (its error is dropped). -/
  login : LoginRequest
  /-- The result of decoding the body as a `ShoppingList`; `none` is a decode error. -/
  list : Option ShoppingList
  /-- The result of decoding the body as a `ShoppingListPatch`. -/
  patch : Option ShoppingListPatch
  /-- The result of decoding the body as a `ListPushAction`. -/
  push : Option ListPushAction

/-- What a handler draws from outside the program state. -/
structure Env where
  /-- The value of `time.Now()`, in nanoseconds. -/
  now : Int
  /-- The value of `rand.IntN(100000000000)`. -/
  rand : Nat

/-- The result of running a handler. -/
inductive Outcome
  | done (w : ResponseWriter) (s : State)
  | fault

/-- An `http.HandlerFunc`. -/
abbrev Handler := ResponseWriter → Request → Env → State → Outcome

/-- Go `time.Hour`, in nanoseconds. -/
def Hour : Int := 3600 * 1000000000

/-! ## Authentication (main.go 69-128) -/

/-- The handler `handleLogin` (main.go 69-83). -/
def handleLogin : Handler := fun w r env s =>
  let data := r.login
  match s.allUsers data.Username with
  | some user =>
    if user.Password = data.Password then
      let token := Itoa (Int.ofNat env.rand)
      let s1 : State :=
        { s with sessions := s.sessions.set token ⟨env.now + 7 * 24 * Hour, user.Username⟩ }
      let w1 := w.Write (Payload.token token)
      Outcome.done (w1.WriteHeader 401) s1
    else Outcome.done (w.WriteHeader 401) s
  | none => Outcome.done (w.WriteHeader 401) s

/-- The middleware `authRequired` (main.go 92-115). -/
def authRequired (next : Handler) : Handler := fun w r env s =>
  let token := r.Authorization
  if !HasPrefix token "Bearer" then Outcome.done (httpError w "unauthorized" 401) s
  else
    match sliceFrom token 7 with
    | none => Outcome.fault
    | some token =>
      match s.sessions token with
      | none => Outcome.done (httpError w "unauthorized" 401) s
      | some session =>
        if session.Expires < env.now then Outcome.done (httpError w "unauthorized" 401) s
        else
          match s.allUsers session.Username with
          | none => Outcome.done (httpError w "unauthorized" 401) s
          | some _ => next w r env s

/-- The middleware `adminRequired` (main.go 117-128). -/
def adminRequired (next : Handler) : Handler :=
  authRequired (fun w r env s =>
    match sliceFrom r.Authorization 7 with
    | none => Outcome.fault
    | some token =>
      match s.sessions token with
      | none => Outcome.fault
      | some session =>
        match s.allUsers session.Username with
        | none => Outcome.fault
        | some user =>
          if user.Role ≠ "admin" then Outcome.done (httpError w "forbidden" 403) s
          else next w r env s)

/-! ## List store handlers (main.go 131-264)

Writes to the response are taken to succeed, so `Encode` and `w.Write` return
no error and the branches that report one are not reached. -/

/-- The loop header shared by the handlers that address one list:
`for i, list := range allData` run up to the first entry with
`strconv.Itoa(list.ID) == id`, yielding its index and a copy of it. -/
def rangeFind (id : String) : List ShoppingList → Nat → Option (Nat × ShoppingList)
  | [], _ => none
  | list :: rest, i =>
    if Itoa list.ID = id then some (i, list) else rangeFind id rest (i + 1)

/-- The handler `handleCreateList` (main.go 131-147). -/
def handleCreateList : Handler := fun w r _ s =>
  match r.list with
  | none => Outcome.done (httpErrorErr w 400) s
  | some list =>
    let s1 : State := { s with allData := s.allData ++ [list] }
    let w1 := w.WriteHeader 201
    Outcome.done (w1.Write (Payload.list list)) s1

/-- The handler `handleListLists` (main.go 149-160). -/
def handleListLists : Handler := fun w _ _ s =>
  Outcome.done (w.Write (Payload.lists s.allData)) s

/-- The handler `handleDeleteList` (main.go 162-172); `allData[:i]` followed by
`allData[i+1:]` is the store without position `i`. -/
def handleDeleteList : Handler := fun w r _ s =>
  let id := r.id
  match rangeFind id s.allData 0 with
  | some (i, _) =>
    let s1 : State := { s with allData := s.allData.take i ++ s.allData.drop (i + 1) }
    Outcome.done (w.WriteHeader 204) s1
  | none => Outcome.done (httpError w "List not found" 404) s

/-- The handler `handleUpdateList` (main.go 174-193). -/
def handleUpdateList : Handler := fun w r _ s =>
  let id := r.id
  match rangeFind id s.allData 0 with
  | some (i, _) =>
    match r.list with
    | none => Outcome.done (httpErrorErr w 400) s
    | some updatedList =>
      let s1 : State := { s with allData := s.allData.set i updatedList }
      Outcome.done (w.Write (Payload.list updatedList)) s1
  | none => Outcome.done (httpError w "List not found" 404) s

/-- The handler `handlePatchList` (main.go 195-221). -/
def handlePatchList : Handler := fun w r _ s =>
  let id := r.id
  match rangeFind id s.allData 0 with
  | some (i, list) =>
    match r.patch with
    | none => Outcome.done (httpErrorErr w 500) s
    | some patch =>
      let list1 : ShoppingList :=
        match patch.Name with
        | some name => { list with Name := name }
        | none => list
      let list2 : ShoppingList :=
        match patch.Items with
        | some items => { list1 with Items := items }
        | none => list1
      let s1 : State := { s with allData := s.allData.set i list2 }
      Outcome.done (w.Write (Payload.list list2)) s1
  | none => Outcome.done (httpError w "List not found" 404) s

/-- The handler `handleGetList` (main.go 223-241). -/
def handleGetList : Handler := fun w r _ s =>
  let id := r.id
  match rangeFind id s.allData 0 with
  | some (_, list) => Outcome.done (w.Write (Payload.list list)) s
  | none => Outcome.done (httpError w "List not found" 404) s

/-- The handler `handleListPush` (main.go 243-264). -/
def handleListPush : Handler := fun w r _ s =>
  let id := r.id
  match rangeFind id s.allData 0 with
  | some (i, list) =>
    match r.push with
    | none => Outcome.done (httpErrorErr w 500) s
    | some item =>
      let list1 : ShoppingList := { list with Items := list.Items ++ [item.Item] }
      let s1 : State := { s with allData := s.allData.set i list1 }
      Outcome.done (w.Write (Payload.list list1)) s1
  | none => Outcome.done (httpError w "List not found" 404) s

/-- The routes registered by `main` (main.go 49-63). -/
inductive Route
  | login
  | createList
  | listLists
  | deleteList
  | updateList
  | patchList
  | getList
  | listPush
deriving DecidableEq

/-- The handler `main` registers for each route (main.go 47-66). -/
def main : Route → Handler
  | Route.login => handleLogin
  | Route.createList => adminRequired handleCreateList
  | Route.listLists => authRequired handleListLists
  | Route.deleteList => adminRequired handleDeleteList
  | Route.updateList => adminRequired handleUpdateList
  | Route.patchList => adminRequired handlePatchList
  | Route.getList => authRequired handleGetList
  | Route.listPush => adminRequired handleListPush

/-! ## Auxiliary definitions for the statements -/

/-- The status a finished handler leaves on the response; `none` after a fault
or when nothing was written. -/
def Outcome.status : Outcome → Option Nat
  | Outcome.done w _ => w.status
  | Outcome.fault => none

/-- The value of a digit string read as a decimal numeral. -/
def digitsValue (cs : List Char) : Nat :=
  cs.foldl (fun acc c => 10 * acc + (c.toNat - 48)) 0

/-- Reads back a rendering made by `Itoa`. -/
def readInt (cs : List Char) : Int :=
  if cs.head? = some '-' then -(digitsValue cs.tail : Int) else (digitsValue cs : Int)

/-- The credential store is keyed by user name: each record is stored under
its own `Username`, as in the initial `allUsers`. -/
def UsersKeyed (users : GoMap User) : Prop :=
  ∀ k u, users k = some u → u.Username = k

/-- A request with the given Authorization header and nothing else. -/
def Request.withAuth (auth : String) : Request :=
  { Authorization := auth, id := "", login := ⟨"", ""⟩, list := none, patch := none,
    push := none }

/-- A state whose registry holds one session: token "42", user "user", expiry 1000. -/
def oneSessionState : State :=
  { State.init with sessions := GoMap.empty.set "42" ⟨1000, "user"⟩ }

/-- A state whose registry holds one session: token "5", user "user", expiry 100. -/
def collidingState : State :=
  { State.init with sessions := GoMap.empty.set "5" ⟨100, "user"⟩ }

/-- A state whose registry holds two sessions: token "5" of "user" expiring at
100 and token "6" of "admin" expiring at 200. -/
def twoSessionState : State :=
  { State.init with
    sessions := (GoMap.empty.set "5" ⟨100, "user"⟩).set "6" ⟨200, "admin"⟩ }

/-- A request whose body decodes to the given login data and nothing else. -/
def Request.withLogin (username password : String) : Request :=
  { Authorization := "", id := "", login := ⟨username, password⟩, list := none,
    patch := none, push := none }

/-- The session a finished handler leaves in the registry under `tok`. -/
def Outcome.session (o : Outcome) (tok : String) : Option Session :=
  match o with
  | Outcome.done _ s => s.sessions tok
  | Outcome.fault => none

/-- The routes `main` wraps in `adminRequired`. -/
def adminRoutes : List Route :=
  [Route.createList, Route.updateList, Route.patchList, Route.listPush, Route.deleteList]

/-- A store of three lists, two of which share the id 2. -/
def sampleStore : List ShoppingList :=
  [⟨1, "Groceries", ["eggs"]⟩, ⟨2, "Tools", ["saw"]⟩, ⟨2, "Spare", []⟩]

/-- The initial state with `sampleStore` as its list store. -/
def sampleState : State := { State.init with allData := sampleStore }

/-- A request for the path value `id` whose body decodes to nothing. -/
def Request.withId (id : String) : Request :=
  { Authorization := "", id := id, login := ⟨"", ""⟩, list := none, patch := none,
    push := none }

/-- A handler that faults whenever it is run. -/
def faultHandler : Handler := fun _ _ _ _ => Outcome.fault

/-- The response `http.Error` leaves on a fresh writer. -/
def errorResponse (msg : String) (code : Nat) : ResponseWriter :=
  { status := some code, body := [Payload.text msg] }

/-- The session named by `tok` passes the checks of `authRequired` at time `now`:
it is in the registry, it has not expired before `now`, and its user is in the
credential store. -/
def SessionPasses (s : State) (now : Int) (tok : String) : Prop :=
  ∃ session, s.sessions tok = some session ∧ now ≤ session.Expires ∧
    ∃ user, s.allUsers session.Username = some user

/-- The initial state with two live sessions: token "1" of "admin" and token
"2" of "user", both expiring at time 1000. -/
def scenarioState : State :=
  { State.init with
    sessions := (GoMap.empty.set "1" ⟨1000, "admin"⟩).set "2" ⟨1000, "user"⟩ }

/-- The list `{id: 1, name: "Groceries", items: ["eggs"]}`. -/
def groceries : ShoppingList := ⟨1, "Groceries", ["eggs"]⟩

/-- Exactly one entry of the store has the id `n`. -/
abbrev UniqueId (l : List ShoppingList) (n : Int) : Prop :=
  l.countP (fun e => decide (e.ID = n)) = 1

/-- Position `j` of the store holds the first entry whose rendered id is `id`. -/
def FirstMatchAt (id : String) (l : List ShoppingList) (j : Nat) : Prop :=
  (∃ e, l[j]? = some e ∧ Itoa e.ID = id) ∧
    ∀ k e, k < j → l[k]? = some e → Itoa e.ID ≠ id

/-- The state of the scenario with the given list store. -/
def scenarioWith (l : List ShoppingList) : State := { scenarioState with allData := l }

/-- The three handlers that write to one entry of the store. -/
def writeHandlers : List Handler := [handleUpdateList, handlePatchList, handleListPush]

/-- The response of a handler that found no list. -/
def notFound : ResponseWriter :=
  { status := some 404, body := [Payload.text "List not found"] }

/-! ## Lemmas on the collaborators -/

theorem bearer_data (t : String) :
    ("Bearer " ++ t).data = 'B' :: 'e' :: 'a' :: 'r' :: 'e' :: 'r' :: ' ' :: t.data := by
  rw [String.data_append]; rfl

theorem hasPrefix_bearer (t : String) : HasPrefix ("Bearer " ++ t) "Bearer" = true := by
  unfold HasPrefix
  rw [bearer_data]
  rfl

theorem sliceFrom_bearer (t : String) : sliceFrom ("Bearer " ++ t) 7 = some t := by
  unfold sliceFrom
  rw [bearer_data]
  simp

/-- Running `authRequired` on a header `"Bearer " ++ tok`, in terms of the lookups. -/
theorem authRequired_bearer (next : Handler) (w : ResponseWriter) (r : Request) (env : Env)
    (s : State) (tok : String) (h : r.Authorization = "Bearer " ++ tok) :
    authRequired next w r env s =
      match s.sessions tok with
      | none => Outcome.done (httpError w "unauthorized" 401) s
      | some session =>
        if session.Expires < env.now then Outcome.done (httpError w "unauthorized" 401) s
        else
          match s.allUsers session.Username with
          | none => Outcome.done (httpError w "unauthorized" 401) s
          | some _ => next w r env s := by
  unfold authRequired
  simp only [h, hasPrefix_bearer, sliceFrom_bearer]
  rfl

theorem authRequired_passes (next : Handler) (w : ResponseWriter) (r : Request) (env : Env)
    (s : State) (tok : String) (h : r.Authorization = "Bearer " ++ tok)
    (hp : SessionPasses s env.now tok) :
    authRequired next w r env s = next w r env s := by
  obtain ⟨session, hs, hexp, user, hu⟩ := hp
  rw [authRequired_bearer next w r env s tok h, hs]
  simp only [hu, not_lt.mpr hexp, if_false]

theorem authRequired_rejects (next : Handler) (w : ResponseWriter) (r : Request) (env : Env)
    (s : State) (tok : String) (h : r.Authorization = "Bearer " ++ tok)
    (hp : ¬ SessionPasses s env.now tok) :
    authRequired next w r env s = Outcome.done (httpError w "unauthorized" 401) s := by
  rw [authRequired_bearer next w r env s tok h]
  cases hs : s.sessions tok with
  | none => rfl
  | some session =>
    by_cases hexp : session.Expires < env.now
    · simp only [hexp, if_true]
    · cases hu : s.allUsers session.Username with
      | none => simp only [hexp, if_false, hu]
      | some user => exact absurd ⟨session, hs, not_lt.mp hexp, user, hu⟩ hp

/-! ## The claims -/

/-- C1 (counterexample): the registry holds token "42" with expiry 1000 and the
request arrives at time 1000, so the expiry is not strictly later than `now`;
yet `authRequired` runs the inner handler, which answers 200, and no 401 is
written. -/
theorem authRequired_expiry_now_forwarded :
    oneSessionState.sessions "42" = some ⟨1000, "user"⟩ ∧
    ¬ ((1000 : Int) < (Env.mk 1000 0).now) ∧
    authRequired handleListLists ResponseWriter.fresh (Request.withAuth ("Bearer " ++ "42"))
        ⟨1000, 0⟩ oneSessionState
      = Outcome.done ⟨some 200, [Payload.lists []]⟩ oneSessionState ∧
    (authRequired handleListLists ResponseWriter.fresh (Request.withAuth ("Bearer " ++ "42"))
        ⟨1000, 0⟩ oneSessionState).status ≠ some 401 := by
  refine ⟨rfl, by decide, rfl, by decide⟩

/-- C1 (amended): for a header `"Bearer " ++ tok`, `authRequired` forwards the
request to the inner handler exactly when `tok` is a key of the registry, the
expiry of that session is not earlier than `now` (an expiry equal to `now` is
still accepted), and the session user is a key of the credential store; in
every other case it answers 401 whatever the inner handler is, leaving the
state as it was. -/
theorem authRequired_bearer_iff (r : Request) (env : Env) (s : State) (tok : String) :
    (SessionPasses s env.now tok ↔
      ∀ next : Handler,
        authRequired next ResponseWriter.fresh { r with Authorization := "Bearer " ++ tok } env s
          = next ResponseWriter.fresh { r with Authorization := "Bearer " ++ tok } env s) ∧
    (¬ SessionPasses s env.now tok ↔
      ∀ next : Handler,
        authRequired next ResponseWriter.fresh { r with Authorization := "Bearer " ++ tok } env s
          = Outcome.done (errorResponse "unauthorized" 401) s) := by
  have hrej : ¬ SessionPasses s env.now tok → ∀ next : Handler,
      authRequired next ResponseWriter.fresh { r with Authorization := "Bearer " ++ tok } env s
        = Outcome.done (errorResponse "unauthorized" 401) s := fun hp next =>
    authRequired_rejects next _ _ env s tok rfl hp
  have hacc : SessionPasses s env.now tok → ∀ next : Handler,
      authRequired next ResponseWriter.fresh { r with Authorization := "Bearer " ++ tok } env s
        = next ResponseWriter.fresh { r with Authorization := "Bearer " ++ tok } env s :=
    fun hp next => authRequired_passes next _ _ env s tok rfl hp
  refine ⟨⟨hacc, fun h => ?_⟩, ⟨hrej, fun h hp => ?_⟩⟩
  · by_contra hp
    have h1 := h faultHandler
    rw [hrej hp faultHandler] at h1
    exact Outcome.noConfusion h1
  · have h1 := h faultHandler
    rw [hacc hp faultHandler] at h1
    exact Outcome.noConfusion h1

/-- C1 (instance): at the state with token "42" expiring at 1000, the header
"Bearer 42" is forwarded at time 1000, the instant of the expiry. -/
theorem authRequired_bearer_iff_witness :
    SessionPasses oneSessionState 1000 "42" ∧
    authRequired handleListLists ResponseWriter.fresh (Request.withAuth ("Bearer " ++ "42"))
        ⟨1000, 0⟩ oneSessionState
      = handleListLists ResponseWriter.fresh (Request.withAuth ("Bearer " ++ "42"))
        ⟨1000, 0⟩ oneSessionState :=
  ⟨⟨⟨1000, "user"⟩, rfl, by decide, ⟨"user", "user", "password"⟩, rfl⟩,
   (authRequired_bearer_iff (Request.withAuth "") ⟨1000, 0⟩ oneSessionState "42").1.mp
     ⟨⟨1000, "user"⟩, rfl, by decide, ⟨"user", "user", "password"⟩, rfl⟩ handleListLists⟩

/-- C2: a request whose Authorization header is absent (the empty string) or
does not start with "Bearer" is answered 401 whatever the inner handler is (it
is not run), and the whole state, list store and session registry included,
is returned as it was. -/
theorem authRequired_no_bearer (next : Handler) (r : Request) (env : Env) (s : State)
    (h : r.Authorization = "" ∨ HasPrefix r.Authorization "Bearer" = false) :
    authRequired next ResponseWriter.fresh r env s
      = Outcome.done { status := some 401, body := [Payload.text "unauthorized"] } s := by
  have hpre : HasPrefix r.Authorization "Bearer" = false := by
    rcases h with h | h
    · rw [h]; rfl
    · exact h
  unfold authRequired
  simp only [hpre, Bool.not_false, if_true]
  rfl

/-- C2 (instance): the header "Basic abc" on the initial state. -/
theorem authRequired_no_bearer_witness :
    HasPrefix (Request.withAuth "Basic abc").Authorization "Bearer" = false ∧
    authRequired faultHandler ResponseWriter.fresh (Request.withAuth "Basic abc") ⟨0, 0⟩
        State.init
      = Outcome.done { status := some 401, body := [Payload.text "unauthorized"] }
        State.init :=
  ⟨by decide,
   authRequired_no_bearer faultHandler (Request.withAuth "Basic abc") ⟨0, 0⟩ State.init
     (Or.inr (by decide))⟩

/-- C3 (failing input): on the six-character header "Bearer" the prefix test
passes and the slice `token[7:]` is out of range, so `authRequired`, and with it
`adminRequired`, ends in a fault and writes no 401, in every state and whatever
the inner handler is. -/
theorem authRequired_bare_bearer_faults (next : Handler) (w : ResponseWriter) (r : Request)
    (env : Env) (s : State) :
    authRequired next w { r with Authorization := "Bearer" } env s = Outcome.fault ∧
    adminRequired next w { r with Authorization := "Bearer" } env s = Outcome.fault ∧
    (authRequired next w { r with Authorization := "Bearer" } env s).status = none :=
  ⟨rfl, rfl, rfl⟩

/-- C4 (failing input): the header "BearerX42", whose seventh character is
not the separator, is accepted when "42" is the token of a live session: the
inner handler runs and answers 200. -/
theorem authRequired_accepts_wrong_separator :
    authRequired handleListLists ResponseWriter.fresh (Request.withAuth "BearerX42") ⟨500, 0⟩
        oneSessionState
      = Outcome.done { status := some 200, body := [Payload.lists []] } oneSessionState ∧
    (authRequired handleListLists ResponseWriter.fresh (Request.withAuth "BearerX42") ⟨500, 0⟩
        oneSessionState).status ≠ some 401 :=
  ⟨rfl, by decide⟩

/-- C5: a request carrying the token of a session that passes `authRequired`
and whose user has a role other than "admin" is answered 403 by
`adminRequired` whatever the wrapped handler is (it is not run), on each of the
five admin-only routes, and the state, the list store included, is returned as
it was. -/
theorem adminRequired_forbidden (next : Handler) (r : Request) (env : Env) (s : State)
    (tok : String) (session : Session) (user : User)
    (hs : s.sessions tok = some session) (hexp : env.now ≤ session.Expires)
    (hu : s.allUsers session.Username = some user) (hrole : user.Role ≠ "admin") :
    adminRequired next ResponseWriter.fresh { r with Authorization := "Bearer " ++ tok } env s
      = Outcome.done { status := some 403, body := [Payload.text "forbidden"] } s ∧
    ∀ route ∈ adminRoutes,
      main route ResponseWriter.fresh { r with Authorization := "Bearer " ++ tok } env s
        = Outcome.done { status := some 403, body := [Payload.text "forbidden"] } s := by
  have key : ∀ next : Handler,
      adminRequired next ResponseWriter.fresh { r with Authorization := "Bearer " ++ tok } env s
        = Outcome.done { status := some 403, body := [Payload.text "forbidden"] } s := by
    intro next
    unfold adminRequired
    rw [authRequired_passes _ _ _ env s tok rfl ⟨session, hs, hexp, user, hu⟩]
    simp only [sliceFrom_bearer, hs, hu, hrole, ne_eq, not_false_eq_true, if_true]
    rfl
  refine ⟨key next, ?_⟩
  intro route hroute
  simp only [adminRoutes, List.mem_cons, List.mem_singleton, List.not_mem_nil, or_false]
    at hroute
  rcases hroute with h | h | h | h | h <;> subst h <;> exact key _

/-- C5 (instance): the session of "user" (role "user") on the delete route. -/
theorem adminRequired_forbidden_witness :
    adminRequired handleDeleteList ResponseWriter.fresh
        { Request.withAuth "" with Authorization := "Bearer " ++ "42" } ⟨500, 0⟩ oneSessionState
      = Outcome.done { status := some 403, body := [Payload.text "forbidden"] }
        oneSessionState :=
  (adminRequired_forbidden handleDeleteList (Request.withAuth "") ⟨500, 0⟩ oneSessionState
    "42" ⟨1000, "user"⟩ ⟨"user", "user", "password"⟩ rfl (by decide) rfl (by decide)).1

theorem allUsers_keyed : UsersKeyed allUsers := by
  intro k u h
  unfold allUsers at h
  split_ifs at h with h1 h2
  · rw [← Option.some.inj h, h1]
  · rw [← Option.some.inj h, h2]

/-- C6: a login whose username is not in the credential store, or whose
password differs from the stored one, is answered 401 with an empty body and
the state, the session registry included, is returned as it was. -/
theorem handleLogin_rejects (r : Request) (env : Env) (s : State)
    (h : s.allUsers r.login.Username = none ∨
      ∃ user, s.allUsers r.login.Username = some user ∧ user.Password ≠ r.login.Password) :
    handleLogin ResponseWriter.fresh r env s
      = Outcome.done { status := some 401, body := [] } s ∧
    (handleLogin ResponseWriter.fresh r env s).session = s.sessions := by
  have key : handleLogin ResponseWriter.fresh r env s
      = Outcome.done { status := some 401, body := [] } s := by
    unfold handleLogin
    rcases h with h | ⟨user, hu, hpw⟩
    · simp only [h]; rfl
    · simp only [hu, hpw, if_false]; rfl
  exact ⟨key, by rw [key]; rfl⟩

/-- C6 (instance): a wrong password for "admin" and an unknown user, on the
initial state. -/
theorem handleLogin_rejects_witness :
    handleLogin ResponseWriter.fresh (Request.withLogin "admin" "guess") ⟨0, 7⟩ State.init
      = Outcome.done { status := some 401, body := [] } State.init ∧
    handleLogin ResponseWriter.fresh (Request.withLogin "nobody" "password") ⟨0, 7⟩ State.init
      = Outcome.done { status := some 401, body := [] } State.init :=
  ⟨(handleLogin_rejects (Request.withLogin "admin" "guess") ⟨0, 7⟩ State.init
      (Or.inr ⟨⟨"admin", "admin", "password"⟩, rfl, by decide⟩)).1,
   (handleLogin_rejects (Request.withLogin "nobody" "password") ⟨0, 7⟩ State.init
      (Or.inl rfl)).1⟩

/-- C7: a login with a known username and the matching password, made at time
`now` with random draw `rand`, answers 200 with the token `Itoa rand` in the
body; afterwards the registry maps that token to a session of the logging-in
user expiring at exactly `now + 7 * 24 * Hour` (604800 seconds), the list store
and the credential store are as before, and the header `"Bearer " ++ token`
is forwarded by `authRequired` at every time up to that expiry.  The
credential store is keyed by user name, as the program's is. -/
theorem handleLogin_success (r : Request) (env : Env) (s : State) (user : User)
    (hkeyed : UsersKeyed s.allUsers)
    (hu : s.allUsers r.login.Username = some user)
    (hpw : user.Password = r.login.Password) :
    ∃ s1 : State,
      handleLogin ResponseWriter.fresh r env s
        = Outcome.done
            { status := some 200, body := [Payload.token (Itoa (Int.ofNat env.rand))] } s1 ∧
      s1.sessions (Itoa (Int.ofNat env.rand))
        = some { Expires := env.now + 7 * 24 * Hour, Username := r.login.Username } ∧
      7 * 24 * Hour = 604800 * 1000000000 ∧
      s1.allData = s.allData ∧ s1.allUsers = s.allUsers ∧
      ∀ (next : Handler) (w : ResponseWriter) (r2 : Request) (env2 : Env),
        r2.Authorization = "Bearer " ++ Itoa (Int.ofNat env.rand) →
        env2.now ≤ env.now + 7 * 24 * Hour →
        authRequired next w r2 env2 s1 = next w r2 env2 s1 := by
  have hname : user.Username = r.login.Username := hkeyed _ _ hu
  refine ⟨{ s with sessions := (s.sessions.set (Itoa (Int.ofNat env.rand))
              ⟨env.now + 7 * 24 * Hour, user.Username⟩) }, ?_, ?_, ?_, rfl, rfl, ?_⟩
  · unfold handleLogin
    simp only [hu, hpw, if_true]
    rfl
  · simp only [GoMap.set, if_true, hname]
  · unfold Hour; norm_num
  · intro next w r2 env2 hhdr hnow
    refine authRequired_passes next w r2 env2 _ _ hhdr
      ⟨⟨env.now + 7 * 24 * Hour, user.Username⟩, ?_, hnow, user, ?_⟩
    · simp only [GoMap.set, if_true]
    · show s.allUsers user.Username = some user
      rw [hname]; exact hu

/-- C7 (instance): "admin" logs in on the initial state at time 0 with draw 12. -/
theorem handleLogin_success_witness :
    ∃ s1 : State,
      handleLogin ResponseWriter.fresh (Request.withLogin "admin" "password") ⟨0, 12⟩ State.init
        = Outcome.done { status := some 200, body := [Payload.token "12"] } s1 ∧
      s1.sessions "12" = some { Expires := 604800000000000, Username := "admin" } := by
  obtain ⟨s1, h1, h2, _⟩ :=
    handleLogin_success (Request.withLogin "admin" "password") ⟨0, 12⟩ State.init
      ⟨"admin", "admin", "password"⟩ allUsers_keyed rfl rfl
  exact ⟨s1, h1, h2⟩

/-- C8 (counterexample): the registry already holds token "5" (user "user",
expiry 100); "admin" logs in successfully and the draw is 5, so the returned
token "5" was a key of the registry before the call, and the session that was
stored under it is no longer there: its user and expiry are replaced. -/
theorem handleLogin_token_collision :
    Itoa 5 = "5" ∧
    collidingState.sessions "5" = some ⟨100, "user"⟩ ∧
    handleLogin ResponseWriter.fresh (Request.withLogin "admin" "password") ⟨0, 5⟩
        collidingState
      = Outcome.done { status := some 200, body := [Payload.token "5"] }
          { collidingState with
            sessions := collidingState.sessions.set "5" ⟨604800000000000, "admin"⟩ } ∧
    (handleLogin ResponseWriter.fresh (Request.withLogin "admin" "password") ⟨0, 5⟩
        collidingState).session "5" = some ⟨604800000000000, "admin"⟩ ∧
    (handleLogin ResponseWriter.fresh (Request.withLogin "admin" "password") ⟨0, 5⟩
        collidingState).session "5" ≠ collidingState.sessions "5" := by
  refine ⟨by decide, rfl, rfl, rfl, by decide⟩

/-- C8 (amended): a successful login answers 200 with the token `Itoa rand`
in the body, the decimal rendering of the random draw, which is not checked
for freshness and may already be a key of the registry; the state afterwards
is the old one with the registry assigned at that token, so the registry maps
the returned token to the new session (replacing a session stored under it
before), every session stored under a different token is still present with
the same user and expiry, and no token other than the returned one is added. -/
theorem handleLogin_other_sessions_kept (r : Request) (env : Env) (s : State) (user : User)
    (hu : s.allUsers r.login.Username = some user)
    (hpw : user.Password = r.login.Password) :
    handleLogin ResponseWriter.fresh r env s
      = Outcome.done
          { status := some 200, body := [Payload.token (Itoa (Int.ofNat env.rand))] }
          { s with sessions := (s.sessions.set (Itoa (Int.ofNat env.rand))
              ⟨env.now + 7 * 24 * Hour, user.Username⟩) } ∧
    (handleLogin ResponseWriter.fresh r env s).session (Itoa (Int.ofNat env.rand))
      = some { Expires := env.now + 7 * 24 * Hour, Username := user.Username } ∧
    (∀ (tok : String) (session : Session), tok ≠ Itoa (Int.ofNat env.rand) →
      s.sessions tok = some session →
      (handleLogin ResponseWriter.fresh r env s).session tok = some session) ∧
    (∀ tok : String, tok ≠ Itoa (Int.ofNat env.rand) →
      (handleLogin ResponseWriter.fresh r env s).session tok = s.sessions tok) := by
  have key : handleLogin ResponseWriter.fresh r env s
      = Outcome.done
          { status := some 200, body := [Payload.token (Itoa (Int.ofNat env.rand))] }
          { s with sessions := (s.sessions.set (Itoa (Int.ofNat env.rand))
              ⟨env.now + 7 * 24 * Hour, user.Username⟩) } := by
    unfold handleLogin
    simp only [hu, hpw, if_true]
    rfl
  have other : ∀ tok : String, tok ≠ Itoa (Int.ofNat env.rand) →
      (handleLogin ResponseWriter.fresh r env s).session tok = s.sessions tok := by
    intro tok htok
    rw [key]
    simp only [Outcome.session, GoMap.set, htok, if_false]
  refine ⟨key, ?_, ?_, other⟩
  · rw [key]
    simp only [Outcome.session, GoMap.set, if_true]
  · intro tok session htok hs
    rw [other tok htok, hs]

/-- C8 (instance): the registry holds token "5" of "user" and token "6" of
"admin"; "admin" logs in at time 0 with draw 5.  The body carries the token
"5", the session under "5" is replaced by the new one, and the session under
"6" is still there with its user and expiry. -/
theorem handleLogin_other_sessions_kept_witness :
    twoSessionState.sessions "5" = some ⟨100, "user"⟩ ∧
    twoSessionState.sessions "6" = some ⟨200, "admin"⟩ ∧
    handleLogin ResponseWriter.fresh (Request.withLogin "admin" "password") ⟨0, 5⟩
        twoSessionState
      = Outcome.done { status := some 200, body := [Payload.token "5"] }
          { twoSessionState with
            sessions := (twoSessionState.sessions.set "5" ⟨604800000000000, "admin"⟩) } ∧
    (handleLogin ResponseWriter.fresh (Request.withLogin "admin" "password") ⟨0, 5⟩
        twoSessionState).session "5" = some ⟨604800000000000, "admin"⟩ ∧
    (handleLogin ResponseWriter.fresh (Request.withLogin "admin" "password") ⟨0, 5⟩
        twoSessionState).session "6" = some ⟨200, "admin"⟩ :=
  ⟨rfl, rfl,
   (handleLogin_other_sessions_kept (Request.withLogin "admin" "password") ⟨0, 5⟩
     twoSessionState ⟨"admin", "admin", "password"⟩ rfl rfl).1,
   (handleLogin_other_sessions_kept (Request.withLogin "admin" "password") ⟨0, 5⟩
     twoSessionState ⟨"admin", "admin", "password"⟩ rfl rfl).2.1,
   (handleLogin_other_sessions_kept (Request.withLogin "admin" "password") ⟨0, 5⟩
     twoSessionState ⟨"admin", "admin", "password"⟩ rfl rfl).2.2.1 "6" ⟨200, "admin"⟩
     (by decide) rfl⟩

/-! ## Lemmas on `Itoa` and on the scan of the store -/

theorem digitChar_toNat (d : Nat) (h : d < 10) : (digitChar d).toNat = 48 + d := by
  interval_cases d <;> rfl

theorem digitsValue_append (xs : List Char) (c : Char) :
    digitsValue (xs ++ [c]) = 10 * digitsValue xs + (c.toNat - 48) := by
  simp [digitsValue, List.foldl_append]

theorem digitsValue_natDigits : ∀ (fuel n : Nat), n < fuel →
    digitsValue (natDigits fuel n) = n := by
  intro fuel
  induction fuel with
  | zero => intro n h; omega
  | succ fuel ih =>
    intro n h
    unfold natDigits
    by_cases h10 : n < 10
    · simp only [h10, if_true]
      simp [digitsValue, digitChar_toNat n h10]
    · simp only [h10, if_false]
      rw [digitsValue_append, ih (n / 10) (by omega),
        digitChar_toNat (n % 10) (Nat.mod_lt n (by decide))]
      omega

theorem natDigits_ne_minus : ∀ (fuel n : Nat) (c : Char), c ∈ natDigits fuel n → c ≠ '-' := by
  intro fuel
  induction fuel with
  | zero => intro n c h; simp [natDigits] at h
  | succ fuel ih =>
    intro n c h
    have hd : ∀ d, d < 10 → digitChar d ≠ '-' := by
      intro d hd heq
      have := digitChar_toNat d hd
      rw [heq] at this
      have h45 : ('-' : Char).toNat = 45 := rfl
      omega
    unfold natDigits at h
    by_cases h10 : n < 10
    · simp only [h10, if_true, List.mem_singleton] at h
      rw [h]; exact hd n h10
    · simp only [h10, if_false, List.mem_append, List.mem_singleton] at h
      rcases h with h | h
      · exact ih _ _ h
      · rw [h]; exact hd _ (Nat.mod_lt n (by decide))

theorem readInt_Itoa (i : Int) : readInt (Itoa i).data = i := by
  cases i with
  | ofNat n =>
    have hhead : (natDigits (n + 1) n).head? ≠ some '-' := by
      intro h
      exact natDigits_ne_minus _ _ _ (List.mem_of_mem_head? h) rfl
    show readInt (natDigits (n + 1) n) = Int.ofNat n
    unfold readInt
    rw [if_neg hhead, digitsValue_natDigits _ _ (Nat.lt_succ_self n)]
    rfl
  | negSucc n =>
    show readInt ('-' :: natDigits (n + 2) (n + 1)) = Int.negSucc n
    unfold readInt
    simp only [List.head?_cons, if_true, List.tail_cons]
    rw [digitsValue_natDigits _ _ (Nat.lt_succ_self (n + 1))]
    rfl

theorem Itoa_inj {a b : Int} (h : Itoa a = Itoa b) : a = b := by
  rw [← readInt_Itoa a, ← readInt_Itoa b, h]

theorem Itoa_eq_iff (a b : Int) : Itoa a = Itoa b ↔ a = b :=
  ⟨Itoa_inj, fun h => by rw [h]⟩

theorem rangeFind_none (id : String) : ∀ (l : List ShoppingList) (i0 : Nat),
    (∀ x ∈ l, Itoa x.ID ≠ id) → rangeFind id l i0 = none := by
  intro l
  induction l with
  | nil => intro i0 _; rfl
  | cons a rest ih =>
    intro i0 h
    unfold rangeFind
    rw [if_neg (h a (List.mem_cons_self _ _))]
    exact ih (i0 + 1) (fun x hx => h x (List.mem_cons_of_mem _ hx))

theorem rangeFind_split (id : String) : ∀ (l : List ShoppingList) (i0 : Nat),
    (∃ x ∈ l, Itoa x.ID = id) →
    ∃ pre e post, l = pre ++ e :: post ∧ (∀ x ∈ pre, Itoa x.ID ≠ id) ∧ Itoa e.ID = id ∧
      rangeFind id l i0 = some (i0 + pre.length, e) := by
  intro l
  induction l with
  | nil => intro i0 h; obtain ⟨x, hx, _⟩ := h; simp at hx
  | cons a rest ih =>
    intro i0 h
    by_cases ha : Itoa a.ID = id
    · refine ⟨[], a, rest, rfl, ?_, ha, ?_⟩
      · intro x hx; simp at hx
      · unfold rangeFind; rw [if_pos ha]; rfl
    · have hrest : ∃ x ∈ rest, Itoa x.ID = id := by
        obtain ⟨x, hx, hxid⟩ := h
        rcases List.mem_cons.mp hx with hxa | hxr
        · rw [hxa] at hxid; exact absurd hxid ha
        · exact ⟨x, hxr, hxid⟩
      obtain ⟨pre, e, post, hsplit, hpre, he, hfind⟩ := ih (i0 + 1) hrest
      refine ⟨a :: pre, e, post, by rw [hsplit]; rfl, ?_, he, ?_⟩
      · intro x hx
        rcases List.mem_cons.mp hx with hxa | hxp
        · rw [hxa]; exact ha
        · exact hpre x hxp
      · unfold rangeFind
        rw [if_neg ha, hfind, List.length_cons]
        congr 2
        omega

/-- The scan for the rendering of an integer `n` stops at the first entry whose
`ID` is `n`. -/
theorem rangeFind_int (n : Int) (l : List ShoppingList) (h : ∃ x ∈ l, x.ID = n) :
    ∃ pre e post, l = pre ++ e :: post ∧ (∀ x ∈ pre, x.ID ≠ n) ∧ e.ID = n ∧
      rangeFind (Itoa n) l 0 = some (pre.length, e) := by
  obtain ⟨x, hx, hxn⟩ := h
  obtain ⟨pre, e, post, hsplit, hpre, he, hfind⟩ :=
    rangeFind_split (Itoa n) l 0 ⟨x, hx, by rw [hxn]⟩
  refine ⟨pre, e, post, hsplit, fun y hy hyn => hpre y hy (by rw [hyn]), Itoa_inj he, ?_⟩
  rw [hfind, Nat.zero_add]

theorem set_at_split {α : Type} (pre : List α) (e e1 : α) (post : List α) :
    (pre ++ e :: post).set pre.length e1 = pre ++ e1 :: post := by
  induction pre with
  | nil => rfl
  | cons a pre ih => simp only [List.cons_append, List.length_cons, List.set_cons_succ, ih]

theorem take_at_split {α : Type} (pre : List α) (e : α) (post : List α) :
    (pre ++ e :: post).take pre.length = pre := by
  induction pre with
  | nil => rfl
  | cons a pre ih => simp only [List.cons_append, List.length_cons, List.take_succ_cons, ih]

theorem drop_at_split {α : Type} (pre : List α) (e : α) (post : List α) :
    (pre ++ e :: post).drop (pre.length + 1) = post := by
  induction pre with
  | nil => rfl
  | cons a pre ih => simp only [List.cons_append, List.length_cons, List.drop_succ_cons, ih]

/-- C9: when some entry of the store has id `n`, `handlePatchList` called with
the path value `Itoa n` and a decoded patch `p` answers 200 with the patched
entry and puts it in the place of the first entry with that id: its name is the
name of `p` when `p` has one and the old name otherwise, its items are the items
of `p` when `p` has them (an empty sequence included) and the old items
otherwise, its id is unchanged, and every other entry stays where it was.
So a patch with only a name keeps the items, a patch with only items keeps the
name, and a patch with neither returns the entry as it was and leaves the
state unchanged. -/
theorem handlePatchList_first_match (r : Request) (env : Env) (s : State) (n : Int)
    (p : ShoppingListPatch) (h : ∃ x ∈ s.allData, x.ID = n) :
    ∃ pre e post, s.allData = pre ++ e :: post ∧ (∀ x ∈ pre, x.ID ≠ n) ∧ e.ID = n ∧
      handlePatchList ResponseWriter.fresh { r with id := Itoa n, patch := some p } env s
        = Outcome.done
            { status := some 200,
              body := [Payload.list ⟨e.ID, p.Name.getD e.Name, p.Items.getD e.Items⟩] }
            { s with
              allData := pre ++ ⟨e.ID, p.Name.getD e.Name, p.Items.getD e.Items⟩ :: post } ∧
      (∀ name, p = ⟨some name, none⟩ →
        handlePatchList ResponseWriter.fresh { r with id := Itoa n, patch := some p } env s
          = Outcome.done { status := some 200, body := [Payload.list ⟨e.ID, name, e.Items⟩] }
              { s with allData := pre ++ ⟨e.ID, name, e.Items⟩ :: post }) ∧
      (∀ items, p = ⟨none, some items⟩ →
        handlePatchList ResponseWriter.fresh { r with id := Itoa n, patch := some p } env s
          = Outcome.done { status := some 200, body := [Payload.list ⟨e.ID, e.Name, items⟩] }
              { s with allData := pre ++ ⟨e.ID, e.Name, items⟩ :: post }) ∧
      (p = ⟨none, none⟩ →
        handlePatchList ResponseWriter.fresh { r with id := Itoa n, patch := some p } env s
          = Outcome.done { status := some 200, body := [Payload.list e] } s) := by
  obtain ⟨pre, e, post, hsplit, hpre, he, hfind⟩ := rangeFind_int n s.allData h
  have key : handlePatchList ResponseWriter.fresh { r with id := Itoa n, patch := some p } env s
      = Outcome.done
          { status := some 200,
            body := [Payload.list ⟨e.ID, p.Name.getD e.Name, p.Items.getD e.Items⟩] }
          { s with
            allData := pre ++ ⟨e.ID, p.Name.getD e.Name, p.Items.getD e.Items⟩ :: post } := by
    unfold handlePatchList
    simp only [hfind]
    rw [hsplit, set_at_split]
    cases hn : p.Name <;> cases hi : p.Items <;> rfl
  refine ⟨pre, e, post, hsplit, hpre, he, key, ?_, ?_, ?_⟩
  · intro name hp
    rw [key, hp]; rfl
  · intro items hp
    rw [key, hp]; rfl
  · intro hp
    rw [key, hp]
    cases s with
    | mk allData sessions allUsers =>
      simp only at hsplit
      subst hsplit
      rfl

/-- C9 (instance): on `sampleStore` a patch of id 2 with only the items `[]`
changes the first of the two entries with id 2 and nothing else. -/
theorem handlePatchList_first_match_witness :
    (∃ x ∈ sampleState.allData, x.ID = 2) ∧
    (∃ pre e post, sampleState.allData = pre ++ e :: post ∧ (∀ x ∈ pre, x.ID ≠ 2) ∧ e.ID = 2 ∧
      handlePatchList ResponseWriter.fresh
          { Request.withId "" with id := Itoa 2, patch := some ⟨none, some []⟩ } ⟨0, 0⟩
          sampleState
        = Outcome.done { status := some 200, body := [Payload.list ⟨e.ID, e.Name, []⟩] }
            { sampleState with allData := pre ++ ⟨e.ID, e.Name, []⟩ :: post }) ∧
    handlePatchList ResponseWriter.fresh
        { Request.withId "" with id := Itoa 2, patch := some ⟨none, some []⟩ } ⟨0, 0⟩
        sampleState
      = Outcome.done { status := some 200, body := [Payload.list ⟨2, "Tools", []⟩] }
          { sampleState with
            allData := [⟨1, "Groceries", ["eggs"]⟩, ⟨2, "Tools", []⟩, ⟨2, "Spare", []⟩] } := by
  refine ⟨⟨⟨2, "Tools", ["saw"]⟩, by decide, rfl⟩, ?_, rfl⟩
  obtain ⟨pre, e, post, h1, h2, h3, _, _, h5, _⟩ :=
    handlePatchList_first_match (Request.withId "") ⟨0, 0⟩ sampleState 2 ⟨none, some []⟩
      ⟨⟨2, "Tools", ["saw"]⟩, by decide, rfl⟩
  exact ⟨pre, e, post, h1, h2, h3, h5 [] rfl⟩

/-- C10: when some entry of the store has id `n`, `handleDeleteList` called
with the path value `Itoa n` answers 204 and the new store is the old one
without its first entry with that id, all other entries (later ones with the
same id included) kept in their order; when no entry has id `n` it answers 404
and the state is unchanged. -/
theorem handleDeleteList_first_match (r : Request) (env : Env) (s : State) (n : Int) :
    ((∃ x ∈ s.allData, x.ID = n) →
      ∃ pre e post, s.allData = pre ++ e :: post ∧ (∀ x ∈ pre, x.ID ≠ n) ∧ e.ID = n ∧
        handleDeleteList ResponseWriter.fresh { r with id := Itoa n } env s
          = Outcome.done { status := some 204, body := [] }
              { s with allData := pre ++ post }) ∧
    ((∀ x ∈ s.allData, x.ID ≠ n) →
      handleDeleteList ResponseWriter.fresh { r with id := Itoa n } env s
        = Outcome.done { status := some 404, body := [Payload.text "List not found"] } s) := by
  constructor
  · intro h
    obtain ⟨pre, e, post, hsplit, hpre, he, hfind⟩ := rangeFind_int n s.allData h
    refine ⟨pre, e, post, hsplit, hpre, he, ?_⟩
    unfold handleDeleteList
    simp only [hfind]
    rw [hsplit, take_at_split, drop_at_split]
    rfl
  · intro h
    have hnone : rangeFind (Itoa n) s.allData 0 = none :=
      rangeFind_none _ _ _ (fun x hx hxn => h x hx (Itoa_inj hxn))
    unfold handleDeleteList
    simp only [hnone]
    rfl

/-- C10 (instance): deleting id 2 from `sampleStore` removes "Tools" and keeps
"Spare"; deleting id 7 answers 404. -/
theorem handleDeleteList_first_match_witness :
    (∃ x ∈ sampleState.allData, x.ID = 2) ∧
    (∃ pre e post, sampleState.allData = pre ++ e :: post ∧ (∀ x ∈ pre, x.ID ≠ 2) ∧ e.ID = 2 ∧
      handleDeleteList ResponseWriter.fresh { Request.withId "" with id := Itoa 2 } ⟨0, 0⟩
          sampleState
        = Outcome.done { status := some 204, body := [] }
            { sampleState with allData := pre ++ post }) ∧
    handleDeleteList ResponseWriter.fresh { Request.withId "" with id := Itoa 2 } ⟨0, 0⟩
        sampleState
      = Outcome.done { status := some 204, body := [] }
          { sampleState with
            allData := [⟨1, "Groceries", ["eggs"]⟩, ⟨2, "Spare", []⟩] } ∧
    handleDeleteList ResponseWriter.fresh { Request.withId "" with id := Itoa 7 } ⟨0, 0⟩
        sampleState
      = Outcome.done { status := some 404, body := [Payload.text "List not found"] }
          sampleState :=
  ⟨⟨⟨2, "Tools", ["saw"]⟩, by decide, rfl⟩,
   (handleDeleteList_first_match (Request.withId "") ⟨0, 0⟩ sampleState 2).1
     ⟨⟨2, "Tools", ["saw"]⟩, by decide, rfl⟩,
   rfl,
   (handleDeleteList_first_match (Request.withId "") ⟨0, 0⟩ sampleState 7).2 (by decide)⟩

/-! ## Further lemmas on the scan -/

theorem rangeFind_at_split (id : String) : ∀ (pre : List ShoppingList) (e : ShoppingList)
    (post : List ShoppingList) (i0 : Nat),
    (∀ x ∈ pre, Itoa x.ID ≠ id) → Itoa e.ID = id →
    rangeFind id (pre ++ e :: post) i0 = some (i0 + pre.length, e) := by
  intro pre
  induction pre with
  | nil =>
    intro e post i0 _ he
    show rangeFind id (e :: post) i0 = _
    unfold rangeFind
    rw [if_pos he]; rfl
  | cons a pre ih =>
    intro e post i0 hpre he
    show rangeFind id (a :: (pre ++ e :: post)) i0 = _
    unfold rangeFind
    rw [if_neg (hpre a (List.mem_cons_self _ _)),
      ih e post (i0 + 1) (fun x hx => hpre x (List.mem_cons_of_mem _ hx)) he,
      List.length_cons]
    congr 2
    omega

theorem rangeFind_some (id : String) (l : List ShoppingList) (i0 i : Nat) (e : ShoppingList)
    (h : rangeFind id l i0 = some (i, e)) :
    ∃ pre post, l = pre ++ e :: post ∧ (∀ x ∈ pre, Itoa x.ID ≠ id) ∧ Itoa e.ID = id ∧
      i = i0 + pre.length := by
  have hex : ∃ x ∈ l, Itoa x.ID = id := by
    by_contra hno
    have hnone := rangeFind_none id l i0 (fun x hx hxid => hno ⟨x, hx, hxid⟩)
    rw [hnone] at h
    exact Option.noConfusion h
  obtain ⟨pre, e1, post, hsplit, hpre, he1, hfind⟩ := rangeFind_split id l i0 hex
  rw [hfind] at h
  have hpair := Option.some.inj h
  have hi : i0 + pre.length = i := congrArg Prod.fst hpair
  have hee : e1 = e := congrArg Prod.snd hpair
  subst hee
  exact ⟨pre, post, hsplit, hpre, he1, hi.symm⟩

theorem rangeFind_int_none (n : Int) (l : List ShoppingList) (h : ∀ x ∈ l, x.ID ≠ n) :
    rangeFind (Itoa n) l 0 = none :=
  rangeFind_none _ _ _ (fun x hx hxn => h x hx (Itoa_inj hxn))

theorem state_eta (s : State) :
    ({ allData := s.allData, sessions := s.sessions, allUsers := s.allUsers } : State) = s := by
  cases s; rfl

/-- C11: when some entry of the store has id `n`, `handleListPush` called with
the path value `Itoa n` and a decoded item answers 200 with the first entry
with that id extended by the item at the end of its items, its id and name
unchanged, and puts it in that entry's place, every other entry staying where
it was (pushing "milk" onto `["eggs"]` gives `["eggs", "milk"]`); when no entry
has id `n` it answers 404 and the state is unchanged. -/
theorem handleListPush_first_match (r : Request) (env : Env) (s : State) (n : Int)
    (item : String) :
    ((∃ x ∈ s.allData, x.ID = n) →
      ∃ pre e post, s.allData = pre ++ e :: post ∧ (∀ x ∈ pre, x.ID ≠ n) ∧ e.ID = n ∧
        handleListPush ResponseWriter.fresh { r with id := Itoa n, push := some ⟨item⟩ } env s
          = Outcome.done
              { status := some 200, body := [Payload.list ⟨e.ID, e.Name, e.Items ++ [item]⟩] }
              { s with allData := pre ++ ⟨e.ID, e.Name, e.Items ++ [item]⟩ :: post }) ∧
    ((∀ x ∈ s.allData, x.ID ≠ n) →
      handleListPush ResponseWriter.fresh { r with id := Itoa n, push := some ⟨item⟩ } env s
        = Outcome.done { status := some 404, body := [Payload.text "List not found"] } s) := by
  constructor
  · intro h
    obtain ⟨pre, e, post, hsplit, hpre, he, hfind⟩ := rangeFind_int n s.allData h
    refine ⟨pre, e, post, hsplit, hpre, he, ?_⟩
    unfold handleListPush
    simp only [hfind]
    rw [hsplit, set_at_split]
    rfl
  · intro h
    unfold handleListPush
    simp only [rangeFind_int_none n s.allData h]
    rfl

/-- C11 (instance): pushing "milk" to id 1 of `sampleStore` gives the items
`["eggs", "milk"]`; pushing to the absent id 7 answers 404. -/
theorem handleListPush_first_match_witness :
    (∃ pre e post, sampleState.allData = pre ++ e :: post ∧ (∀ x ∈ pre, x.ID ≠ 1) ∧ e.ID = 1 ∧
      handleListPush ResponseWriter.fresh
          { Request.withId "" with id := Itoa 1, push := some ⟨"milk"⟩ } ⟨0, 0⟩ sampleState
        = Outcome.done
            { status := some 200, body := [Payload.list ⟨e.ID, e.Name, e.Items ++ ["milk"]⟩] }
            { sampleState with allData := pre ++ ⟨e.ID, e.Name, e.Items ++ ["milk"]⟩ :: post }) ∧
    handleListPush ResponseWriter.fresh
        { Request.withId "" with id := Itoa 1, push := some ⟨"milk"⟩ } ⟨0, 0⟩ sampleState
      = Outcome.done
          { status := some 200, body := [Payload.list ⟨1, "Groceries", ["eggs", "milk"]⟩] }
          { sampleState with
            allData := [⟨1, "Groceries", ["eggs", "milk"]⟩, ⟨2, "Tools", ["saw"]⟩,
              ⟨2, "Spare", []⟩] } ∧
    handleListPush ResponseWriter.fresh
        { Request.withId "" with id := Itoa 7, push := some ⟨"milk"⟩ } ⟨0, 0⟩ sampleState
      = Outcome.done { status := some 404, body := [Payload.text "List not found"] }
          sampleState :=
  ⟨(handleListPush_first_match (Request.withId "") ⟨0, 0⟩ sampleState 1 "milk").1
     ⟨⟨1, "Groceries", ["eggs"]⟩, by decide, rfl⟩,
   rfl,
   (handleListPush_first_match (Request.withId "") ⟨0, 0⟩ sampleState 7 "milk").2 (by decide)⟩

/-- C12: when some entry of the store has id `n`, `handleUpdateList` called with
the path value `Itoa n` and a decoded body `L` answers 200 with `L` and the
entry at the position of the first entry with id `n` becomes exactly `L` (its
id included, whether or not it is `n`), every other entry staying where it
was; when no entry has id `n` it answers 404 and the state is unchanged. -/
theorem handleUpdateList_first_match (r : Request) (env : Env) (s : State) (n : Int)
    (L : ShoppingList) :
    ((∃ x ∈ s.allData, x.ID = n) →
      ∃ pre e post, s.allData = pre ++ e :: post ∧ (∀ x ∈ pre, x.ID ≠ n) ∧ e.ID = n ∧
        handleUpdateList ResponseWriter.fresh { r with id := Itoa n, list := some L } env s
          = Outcome.done { status := some 200, body := [Payload.list L] }
              { s with allData := pre ++ L :: post }) ∧
    ((∀ x ∈ s.allData, x.ID ≠ n) →
      handleUpdateList ResponseWriter.fresh { r with id := Itoa n, list := some L } env s
        = Outcome.done { status := some 404, body := [Payload.text "List not found"] } s) := by
  constructor
  · intro h
    obtain ⟨pre, e, post, hsplit, hpre, he, hfind⟩ := rangeFind_int n s.allData h
    refine ⟨pre, e, post, hsplit, hpre, he, ?_⟩
    unfold handleUpdateList
    simp only [hfind]
    rw [hsplit, set_at_split]
    rfl
  · intro h
    unfold handleUpdateList
    simp only [rangeFind_int_none n s.allData h]
    rfl

/-- C12 (instance): replacing id 2 of `sampleStore` by a list with id 9 stores
id 9 in the place of "Tools"; replacing the absent id 7 answers 404. -/
theorem handleUpdateList_first_match_witness :
    (∃ pre e post, sampleState.allData = pre ++ e :: post ∧ (∀ x ∈ pre, x.ID ≠ 2) ∧ e.ID = 2 ∧
      handleUpdateList ResponseWriter.fresh
          { Request.withId "" with id := Itoa 2, list := some ⟨9, "Paint", ["red"]⟩ } ⟨0, 0⟩
          sampleState
        = Outcome.done { status := some 200, body := [Payload.list ⟨9, "Paint", ["red"]⟩] }
            { sampleState with allData := pre ++ ⟨9, "Paint", ["red"]⟩ :: post }) ∧
    handleUpdateList ResponseWriter.fresh
        { Request.withId "" with id := Itoa 2, list := some ⟨9, "Paint", ["red"]⟩ } ⟨0, 0⟩
        sampleState
      = Outcome.done { status := some 200, body := [Payload.list ⟨9, "Paint", ["red"]⟩] }
          { sampleState with
            allData := [⟨1, "Groceries", ["eggs"]⟩, ⟨9, "Paint", ["red"]⟩, ⟨2, "Spare", []⟩] } ∧
    handleUpdateList ResponseWriter.fresh
        { Request.withId "" with id := Itoa 7, list := some ⟨9, "Paint", ["red"]⟩ } ⟨0, 0⟩
        sampleState
      = Outcome.done { status := some 404, body := [Payload.text "List not found"] }
          sampleState :=
  ⟨(handleUpdateList_first_match (Request.withId "") ⟨0, 0⟩ sampleState 2
      ⟨9, "Paint", ["red"]⟩).1 ⟨⟨2, "Tools", ["saw"]⟩, by decide, rfl⟩,
   rfl,
   (handleUpdateList_first_match (Request.withId "") ⟨0, 0⟩ sampleState 7
      ⟨9, "Paint", ["red"]⟩).2 (by decide)⟩

/-! ## The three outcomes of a handler that writes to one entry -/

theorem handleUpdateList_cases (w : ResponseWriter) (r : Request) (env : Env) (s : State) :
    (rangeFind r.id s.allData 0 = none ∧
      handleUpdateList w r env s = Outcome.done (httpError w "List not found" 404) s) ∨
    (r.list = none ∧ handleUpdateList w r env s = Outcome.done (httpErrorErr w 400) s) ∨
    (∃ i e L, rangeFind r.id s.allData 0 = some (i, e) ∧ r.list = some L ∧
      handleUpdateList w r env s
        = Outcome.done (w.Write (Payload.list L)) { s with allData := s.allData.set i L }) := by
  cases hfind : rangeFind r.id s.allData 0 with
  | none => exact Or.inl ⟨rfl, by simp only [handleUpdateList, hfind]⟩
  | some ie =>
    obtain ⟨i, e⟩ := ie
    cases hl : r.list with
    | none => exact Or.inr (Or.inl ⟨rfl, by simp only [handleUpdateList, hfind, hl]⟩)
    | some L =>
      exact Or.inr (Or.inr ⟨i, e, L, rfl, rfl, by simp only [handleUpdateList, hfind, hl]⟩)

theorem handlePatchList_cases (w : ResponseWriter) (r : Request) (env : Env) (s : State) :
    (rangeFind r.id s.allData 0 = none ∧
      handlePatchList w r env s = Outcome.done (httpError w "List not found" 404) s) ∨
    (r.patch = none ∧ handlePatchList w r env s = Outcome.done (httpErrorErr w 500) s) ∨
    (∃ i e L, rangeFind r.id s.allData 0 = some (i, e) ∧ L.ID = e.ID ∧
      handlePatchList w r env s
        = Outcome.done (w.Write (Payload.list L)) { s with allData := s.allData.set i L }) := by
  cases hfind : rangeFind r.id s.allData 0 with
  | none => exact Or.inl ⟨rfl, by simp only [handlePatchList, hfind]⟩
  | some ie =>
    obtain ⟨i, e⟩ := ie
    cases hp : r.patch with
    | none => exact Or.inr (Or.inl ⟨rfl, by simp only [handlePatchList, hfind, hp]⟩)
    | some p =>
      refine Or.inr (Or.inr
        ⟨i, e, ⟨e.ID, p.Name.getD e.Name, p.Items.getD e.Items⟩, rfl, rfl, ?_⟩)
      simp only [handlePatchList, hfind, hp]
      cases p.Name <;> cases p.Items <;> rfl

theorem handleListPush_cases (w : ResponseWriter) (r : Request) (env : Env) (s : State) :
    (rangeFind r.id s.allData 0 = none ∧
      handleListPush w r env s = Outcome.done (httpError w "List not found" 404) s) ∨
    (r.push = none ∧ handleListPush w r env s = Outcome.done (httpErrorErr w 500) s) ∨
    (∃ i e L, rangeFind r.id s.allData 0 = some (i, e) ∧ L.ID = e.ID ∧
      handleListPush w r env s
        = Outcome.done (w.Write (Payload.list L)) { s with allData := s.allData.set i L }) := by
  cases hfind : rangeFind r.id s.allData 0 with
  | none => exact Or.inl ⟨rfl, by simp only [handleListPush, hfind]⟩
  | some ie =>
    obtain ⟨i, e⟩ := ie
    cases hp : r.push with
    | none => exact Or.inr (Or.inl ⟨rfl, by simp only [handleListPush, hfind, hp]⟩)
    | some item =>
      exact Or.inr (Or.inr ⟨i, e, ⟨e.ID, e.Name, e.Items ++ [item.Item]⟩, rfl, rfl,
        by simp only [handleListPush, hfind, hp]⟩)

/-- A get of `id` right after the first entry matching `id` was overwritten by
an entry that still renders to `id` returns that entry. -/
theorem get_after_set (id : String) (r2 : Request) (env2 : Env) (s : State) (i : Nat)
    (e L : ShoppingList) (hfind : rangeFind id s.allData 0 = some (i, e))
    (hL : Itoa L.ID = id) :
    handleGetList ResponseWriter.fresh { r2 with id := id } env2
        { s with allData := s.allData.set i L }
      = Outcome.done { status := some 200, body := [Payload.list L] }
          { s with allData := s.allData.set i L } := by
  obtain ⟨pre, post, hsplit, hpre, _, hi⟩ := rangeFind_some id s.allData 0 i e hfind
  rw [Nat.zero_add] at hi
  subst hi
  rw [hsplit, set_at_split]
  unfold handleGetList
  simp only [rangeFind_at_split id pre L post 0 hpre hL]
  rfl

/-- What a write that answered 200 with `L` on a fresh writer must have been. -/
theorem done_200_inv (w1 : ResponseWriter) (s1 s2 : State) (L : ShoppingList)
    (h : Outcome.done w1 s1 = Outcome.done { status := some 200, body := [Payload.list L] } s2) :
    w1.status = some 200 ∧ w1.body = [Payload.list L] ∧ s1 = s2 := by
  injection h with hw hs
  rw [hw]
  exact ⟨rfl, rfl, hs⟩

/-- C13 (counterexample): on `sampleStore` a replace addressed to id 1 with a
body whose id is 5 answers 200 with that body, and the get of id 1 issued
right afterwards answers 404 instead of returning it. -/
theorem get_after_update_not_found :
    handleUpdateList ResponseWriter.fresh
        { Request.withId "" with id := Itoa 1, list := some ⟨5, "Other", []⟩ } ⟨0, 0⟩
        sampleState
      = Outcome.done { status := some 200, body := [Payload.list ⟨5, "Other", []⟩] }
          { sampleState with
            allData := [⟨5, "Other", []⟩, ⟨2, "Tools", ["saw"]⟩, ⟨2, "Spare", []⟩] } ∧
    handleGetList ResponseWriter.fresh (Request.withId (Itoa 1)) ⟨0, 0⟩
        { sampleState with
          allData := [⟨5, "Other", []⟩, ⟨2, "Tools", ["saw"]⟩, ⟨2, "Spare", []⟩] }
      = Outcome.done { status := some 404, body := [Payload.text "List not found"] }
          { sampleState with
            allData := [⟨5, "Other", []⟩, ⟨2, "Tools", ["saw"]⟩, ⟨2, "Spare", []⟩] } :=
  ⟨rfl, rfl⟩

/-- C13 (amended): when a patch or a push addressed to an id answers 200 with
the list `L`, and when a replace addressed to an id answers 200 with a list `L`
whose own id is the addressed one, a get of the same id issued right
afterwards answers 200 with exactly `L` and leaves the state as it is. -/
theorem get_after_write (r r2 : Request) (env env2 : Env) (s s1 : State) (L : ShoppingList) :
    (handleUpdateList ResponseWriter.fresh r env s
        = Outcome.done { status := some 200, body := [Payload.list L] } s1 →
      Itoa L.ID = r.id →
      handleGetList ResponseWriter.fresh { r2 with id := r.id } env2 s1
        = Outcome.done { status := some 200, body := [Payload.list L] } s1) ∧
    (handlePatchList ResponseWriter.fresh r env s
        = Outcome.done { status := some 200, body := [Payload.list L] } s1 →
      handleGetList ResponseWriter.fresh { r2 with id := r.id } env2 s1
        = Outcome.done { status := some 200, body := [Payload.list L] } s1) ∧
    (handleListPush ResponseWriter.fresh r env s
        = Outcome.done { status := some 200, body := [Payload.list L] } s1 →
      handleGetList ResponseWriter.fresh { r2 with id := r.id } env2 s1
        = Outcome.done { status := some 200, body := [Payload.list L] } s1) := by
  have fin : ∀ (i : Nat) (e L1 : ShoppingList), rangeFind r.id s.allData 0 = some (i, e) →
      Itoa L1.ID = r.id →
      Outcome.done (ResponseWriter.fresh.Write (Payload.list L1))
          { s with allData := s.allData.set i L1 }
        = Outcome.done { status := some 200, body := [Payload.list L] } s1 →
      handleGetList ResponseWriter.fresh { r2 with id := r.id } env2 s1
        = Outcome.done { status := some 200, body := [Payload.list L] } s1 := by
    intro i e L1 hfind hL1 h
    obtain ⟨_, hbody, hs⟩ := done_200_inv _ _ _ _ h
    have hLL : L1 = L := by
      have h0 : [Payload.list L1] = [Payload.list L] := hbody
      injection h0 with h1 _
      injection h1
    subst hLL
    subst hs
    exact get_after_set r.id r2 env2 s i e L1 hfind hL1
  have bad : ∀ (w1 : ResponseWriter), w1.status ≠ some 200 →
      Outcome.done w1 s = Outcome.done { status := some 200, body := [Payload.list L] } s1 →
      False := fun w1 hne h => hne (done_200_inv _ _ _ _ h).1
  refine ⟨fun h hid => ?_, fun h => ?_, fun h => ?_⟩
  · rcases handleUpdateList_cases ResponseWriter.fresh r env s with
      ⟨_, hc⟩ | ⟨_, hc⟩ | ⟨i, e, L1, hfind, hl, hc⟩
    · rw [hc] at h; exact (bad _ (by decide) h).elim
    · rw [hc] at h; exact (bad _ (by decide) h).elim
    · rw [hc] at h
      have hLL : L1 = L := by
        have h0 : [Payload.list L1] = [Payload.list L] := (done_200_inv _ _ _ _ h).2.1
        injection h0 with h1 _
        injection h1
      exact fin i e L1 hfind (by rw [hLL]; exact hid) h
  · rcases handlePatchList_cases ResponseWriter.fresh r env s with
      ⟨_, hc⟩ | ⟨_, hc⟩ | ⟨i, e, L1, hfind, hid, hc⟩
    · rw [hc] at h; exact (bad _ (by decide) h).elim
    · rw [hc] at h; exact (bad _ (by decide) h).elim
    · rw [hc] at h
      obtain ⟨_, _, _, _, he, _⟩ := rangeFind_some r.id s.allData 0 i e hfind
      exact fin i e L1 hfind (by rw [hid]; exact he) h
  · rcases handleListPush_cases ResponseWriter.fresh r env s with
      ⟨_, hc⟩ | ⟨_, hc⟩ | ⟨i, e, L1, hfind, hid, hc⟩
    · rw [hc] at h; exact (bad _ (by decide) h).elim
    · rw [hc] at h; exact (bad _ (by decide) h).elim
    · rw [hc] at h
      obtain ⟨_, _, _, _, he, _⟩ := rangeFind_some r.id s.allData 0 i e hfind
      exact fin i e L1 hfind (by rw [hid]; exact he) h

/-- C13 (instance): after the patch of id 2 of `sampleStore` to the items `[]`
and after the replace of id 2 by a list that keeps the id 2, the get of id 2
returns the list just written. -/
theorem get_after_write_witness :
    handleGetList ResponseWriter.fresh { Request.withId "" with id := "2" } ⟨0, 0⟩
        { sampleState with
          allData := [⟨1, "Groceries", ["eggs"]⟩, ⟨2, "Tools", []⟩, ⟨2, "Spare", []⟩] }
      = Outcome.done { status := some 200, body := [Payload.list ⟨2, "Tools", []⟩] }
          { sampleState with
            allData := [⟨1, "Groceries", ["eggs"]⟩, ⟨2, "Tools", []⟩, ⟨2, "Spare", []⟩] } ∧
    handleGetList ResponseWriter.fresh { Request.withId "" with id := "2" } ⟨0, 0⟩
        { sampleState with
          allData := [⟨1, "Groceries", ["eggs"]⟩, ⟨2, "Paint", ["red"]⟩, ⟨2, "Spare", []⟩] }
      = Outcome.done { status := some 200, body := [Payload.list ⟨2, "Paint", ["red"]⟩] }
          { sampleState with
            allData := [⟨1, "Groceries", ["eggs"]⟩, ⟨2, "Paint", ["red"]⟩, ⟨2, "Spare", []⟩] } :=
  ⟨(get_after_write { Request.withId "2" with patch := some ⟨none, some []⟩ }
      (Request.withId "") ⟨0, 0⟩ ⟨0, 0⟩ sampleState _ ⟨2, "Tools", []⟩).2.1 rfl,
   (get_after_write { Request.withId "2" with list := some ⟨2, "Paint", ["red"]⟩ }
      (Request.withId "") ⟨0, 0⟩ ⟨0, 0⟩ sampleState _ ⟨2, "Paint", ["red"]⟩).1 rfl rfl⟩

/-- C14: `handleGetList` called with the path value `Itoa n` answers 200 with
the first entry of the store whose id is `n` when there is one, answers 404
when there is none, so that the answer is 404 exactly when no entry has id `n`,
and in every case returns the state as it was. -/
theorem handleGetList_first_match (r : Request) (env : Env) (s : State) (n : Int) :
    ((∃ x ∈ s.allData, x.ID = n) →
      ∃ pre e post, s.allData = pre ++ e :: post ∧ (∀ x ∈ pre, x.ID ≠ n) ∧ e.ID = n ∧
        handleGetList ResponseWriter.fresh { r with id := Itoa n } env s
          = Outcome.done { status := some 200, body := [Payload.list e] } s) ∧
    ((∀ x ∈ s.allData, x.ID ≠ n) →
      handleGetList ResponseWriter.fresh { r with id := Itoa n } env s
        = Outcome.done { status := some 404, body := [Payload.text "List not found"] } s) ∧
    ((handleGetList ResponseWriter.fresh { r with id := Itoa n } env s).status = some 404 ↔
      ∀ x ∈ s.allData, x.ID ≠ n) ∧
    (∃ w1, handleGetList ResponseWriter.fresh { r with id := Itoa n } env s
      = Outcome.done w1 s) := by
  have hyes : (∃ x ∈ s.allData, x.ID = n) →
      ∃ pre e post, s.allData = pre ++ e :: post ∧ (∀ x ∈ pre, x.ID ≠ n) ∧ e.ID = n ∧
        handleGetList ResponseWriter.fresh { r with id := Itoa n } env s
          = Outcome.done { status := some 200, body := [Payload.list e] } s := by
    intro h
    obtain ⟨pre, e, post, hsplit, hpre, he, hfind⟩ := rangeFind_int n s.allData h
    refine ⟨pre, e, post, hsplit, hpre, he, ?_⟩
    simp only [handleGetList, hfind]
    rfl
  have hno : (∀ x ∈ s.allData, x.ID ≠ n) →
      handleGetList ResponseWriter.fresh { r with id := Itoa n } env s
        = Outcome.done { status := some 404, body := [Payload.text "List not found"] } s := by
    intro h
    simp only [handleGetList, rangeFind_int_none n s.allData h]
    rfl
  refine ⟨hyes, hno, ⟨fun h404 x hx hxn => ?_, fun h => by rw [hno h]; rfl⟩, ?_⟩
  · obtain ⟨_, e, _, _, _, _, hget⟩ := hyes ⟨x, hx, hxn⟩
    rw [hget] at h404
    exact absurd (Option.some.inj h404) (by decide)
  · by_cases h : ∃ x ∈ s.allData, x.ID = n
    · obtain ⟨_, e, _, _, _, _, hget⟩ := hyes h
      exact ⟨_, hget⟩
    · exact ⟨_, hno (fun x hx hxn => h ⟨x, hx, hxn⟩)⟩

/-- C14 (instance): on `sampleStore` the get of id 2 returns "Tools", the first
of the two entries with that id, and the get of id 7 answers 404. -/
theorem handleGetList_first_match_witness :
    (∃ pre e post, sampleState.allData = pre ++ e :: post ∧ (∀ x ∈ pre, x.ID ≠ 2) ∧ e.ID = 2 ∧
      handleGetList ResponseWriter.fresh { Request.withId "" with id := Itoa 2 } ⟨0, 0⟩
          sampleState
        = Outcome.done { status := some 200, body := [Payload.list e] } sampleState) ∧
    handleGetList ResponseWriter.fresh { Request.withId "" with id := Itoa 2 } ⟨0, 0⟩
        sampleState
      = Outcome.done { status := some 200, body := [Payload.list ⟨2, "Tools", ["saw"]⟩] }
          sampleState ∧
    handleGetList ResponseWriter.fresh { Request.withId "" with id := Itoa 7 } ⟨0, 0⟩
        sampleState
      = Outcome.done { status := some 404, body := [Payload.text "List not found"] }
          sampleState :=
  ⟨(handleGetList_first_match (Request.withId "") ⟨0, 0⟩ sampleState 2).1
     ⟨⟨2, "Tools", ["saw"]⟩, by decide, rfl⟩,
   rfl,
   (handleGetList_first_match (Request.withId "") ⟨0, 0⟩ sampleState 7).2.1 (by decide)⟩

/-- C15: for every store and every decoded body `L`, whatever its id,
`handleCreateList` answers 201 with `L` and the new store is the old one with
`L` appended at the end, the earlier entries unchanged and in the same order;
the rest of the state is as before. -/
theorem handleCreateList_appends (r : Request) (env : Env) (s : State) (L : ShoppingList) :
    handleCreateList ResponseWriter.fresh { r with list := some L } env s
      = Outcome.done { status := some 201, body := [Payload.list L] }
          { s with allData := s.allData ++ [L] } :=
  rfl

/-- C15 (instance): creating a list whose id 2 is already present twice in
`sampleStore` appends it as a fourth entry. -/
theorem handleCreateList_appends_witness :
    handleCreateList ResponseWriter.fresh
        { Request.withId "" with list := some ⟨2, "Again", []⟩ } ⟨0, 0⟩ sampleState
      = Outcome.done { status := some 201, body := [Payload.list ⟨2, "Again", []⟩] }
          { sampleState with
            allData := [⟨1, "Groceries", ["eggs"]⟩, ⟨2, "Tools", ["saw"]⟩, ⟨2, "Spare", []⟩,
              ⟨2, "Again", []⟩] } :=
  handleCreateList_appends (Request.withId "") ⟨0, 0⟩ sampleState ⟨2, "Again", []⟩

/-- C16: when exactly one entry of the store has id `n`, the delete of `n`
answers 204 and the get of `n` on the state it leaves answers 404. -/
theorem get_after_delete_not_found (r r2 : Request) (env env2 : Env) (s : State) (n : Int)
    (h : UniqueId s.allData n) :
    ∃ s1 : State,
      handleDeleteList ResponseWriter.fresh { r with id := Itoa n } env s
        = Outcome.done { status := some 204, body := [] } s1 ∧
      handleGetList ResponseWriter.fresh { r2 with id := Itoa n } env2 s1
        = Outcome.done { status := some 404, body := [Payload.text "List not found"] } s1 := by
  unfold UniqueId at h
  have hex : ∃ x ∈ s.allData, x.ID = n := by
    have hpos : 0 < s.allData.countP (fun e => decide (e.ID = n)) := by omega
    obtain ⟨x, hx, hxn⟩ := List.countP_pos_iff.mp hpos
    exact ⟨x, hx, of_decide_eq_true hxn⟩
  obtain ⟨pre, e, post, hsplit, hpre, he, hfind⟩ := rangeFind_int n s.allData hex
  have hpre0 : pre.countP (fun e => decide (e.ID = n)) = 0 :=
    List.countP_eq_zero.mpr (fun x hx => by simpa using hpre x hx)
  have hpost0 : post.countP (fun e => decide (e.ID = n)) = 0 := by
    rw [hsplit, List.countP_append, List.countP_cons_of_pos _ _ (by simpa using he), hpre0] at h
    omega
  have hpost : ∀ x ∈ post, x.ID ≠ n := fun x hx => by
    simpa using List.countP_eq_zero.mp hpost0 x hx
  refine ⟨{ s with allData := pre ++ post }, ?_, ?_⟩
  · simp only [handleDeleteList, hfind]
    rw [hsplit, take_at_split, drop_at_split]
    rfl
  · have hnone : rangeFind (Itoa n) (pre ++ post) 0 = none :=
      rangeFind_int_none n _ (fun x hx => by
        rcases List.mem_append.mp hx with hx | hx
        · exact hpre x hx
        · exact hpost x hx)
    simp only [handleGetList, hnone]
    rfl

/-- C16 (instance): id 1 occurs once in `sampleStore`; after its delete the get
of id 1 answers 404. -/
theorem get_after_delete_not_found_witness :
    UniqueId sampleState.allData 1 ∧
    ∃ s1 : State,
      handleDeleteList ResponseWriter.fresh { Request.withId "" with id := Itoa 1 } ⟨0, 0⟩
          sampleState
        = Outcome.done { status := some 204, body := [] } s1 ∧
      handleGetList ResponseWriter.fresh { Request.withId "" with id := Itoa 1 } ⟨0, 0⟩ s1
        = Outcome.done { status := some 404, body := [Payload.text "List not found"] } s1 :=
  ⟨by decide,
   get_after_delete_not_found (Request.withId "") (Request.withId "") ⟨0, 0⟩ ⟨0, 0⟩
     sampleState 1 (by decide)⟩

/-- C17: the scenario run through the routes of `main`, from an empty store
with a live admin session (token "1") and a live user session (token "2"):
the create of `{id: 1, name: "Groceries", items: ["eggs"]}` as admin answers
201; the get of list 1 as user answers 200 with that list; the patch of list 1
with the items `["eggs", "milk"]` as admin answers 200 with those items and
the name "Groceries"; the delete of list 1 as admin answers 204; the get of
list 1 after it answers 404. -/
theorem end_to_end_scenario :
    scenarioState.allData = [] ∧
    main Route.createList ResponseWriter.fresh
        { Authorization := "Bearer 1", id := "", login := ⟨"", ""⟩, list := some groceries,
          patch := none, push := none } ⟨0, 0⟩ scenarioState
      = Outcome.done { status := some 201, body := [Payload.list groceries] }
          (scenarioWith [groceries]) ∧
    main Route.getList ResponseWriter.fresh
        { Authorization := "Bearer 2", id := "1", login := ⟨"", ""⟩, list := none,
          patch := none, push := none } ⟨1, 0⟩ (scenarioWith [groceries])
      = Outcome.done { status := some 200, body := [Payload.list groceries] }
          (scenarioWith [groceries]) ∧
    main Route.patchList ResponseWriter.fresh
        { Authorization := "Bearer 1", id := "1", login := ⟨"", ""⟩, list := none,
          patch := some ⟨none, some ["eggs", "milk"]⟩, push := none } ⟨2, 0⟩
        (scenarioWith [groceries])
      = Outcome.done
          { status := some 200, body := [Payload.list ⟨1, "Groceries", ["eggs", "milk"]⟩] }
          (scenarioWith [⟨1, "Groceries", ["eggs", "milk"]⟩]) ∧
    main Route.deleteList ResponseWriter.fresh
        { Authorization := "Bearer 1", id := "1", login := ⟨"", ""⟩, list := none,
          patch := none, push := none } ⟨3, 0⟩
        (scenarioWith [⟨1, "Groceries", ["eggs", "milk"]⟩])
      = Outcome.done { status := some 204, body := [] } (scenarioWith []) ∧
    main Route.getList ResponseWriter.fresh
        { Authorization := "Bearer 2", id := "1", login := ⟨"", ""⟩, list := none,
          patch := none, push := none } ⟨4, 0⟩ (scenarioWith [])
      = Outcome.done { status := some 404, body := [Payload.text "List not found"] }
          (scenarioWith []) :=
  ⟨rfl, rfl, rfl, rfl, rfl, rfl⟩

/-- C18: a body that fails to decode is answered 400 by `handleCreateList`, in
every state, and by `handleUpdateList` when the request addresses an id present
in the store; in both cases the state, the list store included, is returned as
it was. -/
theorem decode_error_bad_request (r : Request) (env : Env) (s : State) (n : Int) :
    handleCreateList ResponseWriter.fresh { r with list := none } env s
      = Outcome.done { status := some 400, body := [Payload.errText] } s ∧
    ((∃ x ∈ s.allData, x.ID = n) →
      handleUpdateList ResponseWriter.fresh { r with id := Itoa n, list := none } env s
        = Outcome.done { status := some 400, body := [Payload.errText] } s) := by
  refine ⟨rfl, fun h => ?_⟩
  obtain ⟨pre, e, post, _, _, _, hfind⟩ := rangeFind_int n s.allData h
  simp only [handleUpdateList, hfind]
  rfl

/-- C18 (instance): an undecodable body sent to create and to the replace of
id 2 on `sampleStore`. -/
theorem decode_error_bad_request_witness :
    handleCreateList ResponseWriter.fresh { Request.withId "" with list := none } ⟨0, 0⟩
        sampleState
      = Outcome.done { status := some 400, body := [Payload.errText] } sampleState ∧
    handleUpdateList ResponseWriter.fresh
        { Request.withId "" with id := Itoa 2, list := none } ⟨0, 0⟩ sampleState
      = Outcome.done { status := some 400, body := [Payload.errText] } sampleState :=
  ⟨(decode_error_bad_request (Request.withId "") ⟨0, 0⟩ sampleState 2).1,
   (decode_error_bad_request (Request.withId "") ⟨0, 0⟩ sampleState 2).2
     ⟨⟨2, "Tools", ["saw"]⟩, by decide, rfl⟩⟩

theorem firstMatchAt_of_rangeFind (id : String) (l : List ShoppingList) (i : Nat)
    (e : ShoppingList) (h : rangeFind id l 0 = some (i, e)) : FirstMatchAt id l i := by
  obtain ⟨pre, post, hsplit, hpre, he, hi⟩ := rangeFind_some id l 0 i e h
  rw [Nat.zero_add] at hi
  subst hi
  subst hsplit
  refine ⟨⟨e, ?_, he⟩, ?_⟩
  · rw [List.getElem?_append_right (Nat.le_refl _)]
    simp
  · intro k e1 hk hke
    rw [List.getElem?_append_left hk] at hke
    exact hpre e1 (List.getElem?_mem hke)

/-- A handler outcome that either leaves the state alone or overwrites the
position found by the scan keeps the length of the store, the registry and the
credential store, and every position that is not the first match. -/
theorem frame_of_cases (id : String) (s : State) (o : Outcome)
    (h : (∃ w1, o = Outcome.done w1 s) ∨
      ∃ w1 i e L, rangeFind id s.allData 0 = some (i, e) ∧
        o = Outcome.done w1 { s with allData := s.allData.set i L }) :
    ∃ w1 s1, o = Outcome.done w1 s1 ∧ s1.allData.length = s.allData.length ∧
      s1.sessions = s.sessions ∧ s1.allUsers = s.allUsers ∧
      ∀ j, ¬ FirstMatchAt id s.allData j → s1.allData[j]? = s.allData[j]? := by
  rcases h with ⟨w1, ho⟩ | ⟨w1, i, e, L, hfind, ho⟩
  · exact ⟨w1, s, ho, rfl, rfl, rfl, fun _ _ => rfl⟩
  · refine ⟨w1, _, ho, List.length_set _ _ _, rfl, rfl, fun j hj => ?_⟩
    have hij : i ≠ j := fun hij => hj (hij ▸ firstMatchAt_of_rangeFind id s.allData i e hfind)
    exact List.getElem?_set_ne hij

/-- C19: every replace, patch or push request, whatever its path value and
body and whether it succeeds or not, ends without a fault and leaves a store of
the same length in which every position other than that of the first entry
matching the path value holds the entry it held before; in particular an entry
that comes after another entry with the same id is never touched.  The
registry and the credential store are unchanged too. -/
theorem write_frame (handler : Handler) (hmem : handler ∈ writeHandlers) (r : Request)
    (env : Env) (s : State) :
    ∃ w1 s1, handler ResponseWriter.fresh r env s = Outcome.done w1 s1 ∧
      s1.allData.length = s.allData.length ∧
      s1.sessions = s.sessions ∧ s1.allUsers = s.allUsers ∧
      (∀ j, ¬ FirstMatchAt r.id s.allData j → s1.allData[j]? = s.allData[j]?) ∧
      (∀ (j k : Nat) (e : ShoppingList), k < j → s.allData[k]? = some e → Itoa e.ID = r.id →
        s1.allData[j]? = s.allData[j]?) := by
  have hcases : (∃ w1, handler ResponseWriter.fresh r env s = Outcome.done w1 s) ∨
      ∃ w1 i e L, rangeFind r.id s.allData 0 = some (i, e) ∧
        handler ResponseWriter.fresh r env s
          = Outcome.done w1 { s with allData := s.allData.set i L } := by
    simp only [writeHandlers, List.mem_cons, List.mem_singleton, List.not_mem_nil, or_false]
      at hmem
    rcases hmem with hh | hh | hh <;> subst hh
    · rcases handleUpdateList_cases ResponseWriter.fresh r env s with
        ⟨_, hc⟩ | ⟨_, hc⟩ | ⟨i, e, L, hfind, _, hc⟩
      · exact Or.inl ⟨_, hc⟩
      · exact Or.inl ⟨_, hc⟩
      · exact Or.inr ⟨_, i, e, L, hfind, hc⟩
    · rcases handlePatchList_cases ResponseWriter.fresh r env s with
        ⟨_, hc⟩ | ⟨_, hc⟩ | ⟨i, e, L, hfind, _, hc⟩
      · exact Or.inl ⟨_, hc⟩
      · exact Or.inl ⟨_, hc⟩
      · exact Or.inr ⟨_, i, e, L, hfind, hc⟩
    · rcases handleListPush_cases ResponseWriter.fresh r env s with
        ⟨_, hc⟩ | ⟨_, hc⟩ | ⟨i, e, L, hfind, _, hc⟩
      · exact Or.inl ⟨_, hc⟩
      · exact Or.inl ⟨_, hc⟩
      · exact Or.inr ⟨_, i, e, L, hfind, hc⟩
  obtain ⟨w1, s1, ho, hlen, hsess, husers, hframe⟩ := frame_of_cases r.id s _ hcases
  refine ⟨w1, s1, ho, hlen, hsess, husers, hframe, fun j k e hk hke hid => ?_⟩
  exact hframe j (fun hfm => hfm.2 k e hk hke hid)

/-- C19 (instance): the push of "nail" to id 2 of `sampleStore` leaves three
entries and does not touch position 2, the later entry with the same id. -/
theorem write_frame_witness :
    handleListPush ∈ writeHandlers ∧
    ∃ w1 s1,
      handleListPush ResponseWriter.fresh
          { Request.withId "2" with push := some ⟨"nail"⟩ } ⟨0, 0⟩ sampleState
        = Outcome.done w1 s1 ∧
      s1.allData.length = 3 ∧ s1.allData[2]? = some ⟨2, "Spare", []⟩ := by
  have hmem : handleListPush ∈ writeHandlers := by
    simp only [writeHandlers, List.mem_cons, List.mem_singleton, or_true, true_or]
  obtain ⟨w1, s1, ho, hlen, _, _, _, hlater⟩ :=
    write_frame handleListPush hmem { Request.withId "2" with push := some ⟨"nail"⟩ } ⟨0, 0⟩
      sampleState
  exact ⟨hmem, w1, s1, ho, hlen, hlater 2 1 ⟨2, "Tools", ["saw"]⟩ (by decide) rfl rfl⟩

/-- C20: entries are matched by comparing the path value with `Itoa` of the
stored id; when the path value is not the rendering of the id of any stored
entry, get, replace, patch, push and delete all answer 404, whatever the body,
and return the state as it was. -/
theorem unmatched_path_not_found (r : Request) (env : Env) (s : State)
    (h : ∀ x ∈ s.allData, Itoa x.ID ≠ r.id) :
    handleGetList ResponseWriter.fresh r env s = Outcome.done notFound s ∧
    handleUpdateList ResponseWriter.fresh r env s = Outcome.done notFound s ∧
    handlePatchList ResponseWriter.fresh r env s = Outcome.done notFound s ∧
    handleListPush ResponseWriter.fresh r env s = Outcome.done notFound s ∧
    handleDeleteList ResponseWriter.fresh r env s = Outcome.done notFound s := by
  have hnone : rangeFind r.id s.allData 0 = none := rangeFind_none _ _ _ h
  refine ⟨?_, ?_, ?_, ?_, ?_⟩
  · simp only [handleGetList, hnone]; rfl
  · simp only [handleUpdateList, hnone]; rfl
  · simp only [handlePatchList, hnone]; rfl
  · simp only [handleListPush, hnone]; rfl
  · simp only [handleDeleteList, hnone]; rfl

/-- C20 (instance): with id 1 in `sampleStore`, the path values "01", "+1", ""
and "one" match no entry; the get of "01" and the delete of "+1" answer 404. -/
theorem unmatched_path_not_found_witness :
    (∀ x ∈ sampleState.allData, Itoa x.ID ≠ "01") ∧
    (∀ x ∈ sampleState.allData, Itoa x.ID ≠ "+1") ∧
    (∀ x ∈ sampleState.allData, Itoa x.ID ≠ "") ∧
    (∀ x ∈ sampleState.allData, Itoa x.ID ≠ "one") ∧
    handleGetList ResponseWriter.fresh (Request.withId "01") ⟨0, 0⟩ sampleState
      = Outcome.done notFound sampleState ∧
    handleDeleteList ResponseWriter.fresh (Request.withId "+1") ⟨0, 0⟩ sampleState
      = Outcome.done notFound sampleState :=
  ⟨by decide, by decide, by decide, by decide,
   (unmatched_path_not_found (Request.withId "01") ⟨0, 0⟩ sampleState (by decide)).1,
   (unmatched_path_not_found (Request.withId "+1") ⟨0, 0⟩ sampleState (by decide)).2.2.2.2⟩

end RestApi
